import Mathlib

/-!
Shallow embedding of the Strava API client (`src/client.ts` of tomkp/strava)
for checking its natural-language specification.

The client is single-threaded TypeScript; every network interaction is
modelled by an explicit oracle argument (the parsed outcome the `fetch`
would produce), and every mutation of the client instance is explicit
state passing over `ClientState`.  Observable side effects (network calls,
the `onTokenRefresh` callback) are recorded in an explicit `Effect` trace
so that claims about "a call happens / never happens" are statable.
-/

/-- Mirrors `StravaTokens` from `src/types.ts`: the token triple held by the
client instance.  `expiresAt` is a unix timestamp in whole seconds. -/
structure StravaTokens where
  accessToken : String
  refreshToken : String
  expiresAt : Nat
deriving DecidableEq, Repr

/-- Mirrors the fields of `StravaTokenResponse` that the client itself reads
from the `POST /oauth/token` response body. -/
structure StravaTokenResponse where
  access_token : String
  refresh_token : String
  expires_at : Nat
deriving DecidableEq, Repr

/-- The configuration fields of `StravaClientConfig` that the verified
operations read.  `onTokenRefresh` is passed separately as an explicit
function argument (state-passing style), `clientId`/`clientSecret`/
`redirectUri` only flow into request bodies the claims do not inspect. -/
structure ClientConfig where
  autoRefresh : Bool
  refreshBuffer : Nat
deriving DecidableEq, Repr

/-- The error taxonomy from `src/errors.ts` as far as the claims need it:
which constructor of the taxonomy an operation throws. -/
inductive StravaError where
  | validationError (msg : String)
  | tokenRefreshError (msg : String)
  | networkError (msg : String)
  | apiError (status : Nat) (msg : String)
deriving DecidableEq, Repr

/-- A JavaScript `Number(...)` result for the strings this client converts:
either a numeric value or `NaN`. -/
inductive JsNum where
  | nan
  | num (n : Int)
deriving DecidableEq, Repr

/-- A value stored in a rate-limit field: the result of JS array
destructuring followed by `Number` conversion, so possibly `NaN` (conversion
failed) or `undefined` (the destructured position was absent). -/
inductive JsNumVal where
  | nan
  | undef
  | num (n : Int)
deriving DecidableEq, Repr

/-- One window of `StravaRateLimitInfo` from `src/types.ts`. -/
structure RateLimitBucket where
  usage : JsNumVal
  limit : JsNumVal
deriving DecidableEq, Repr

/-- Mirrors `StravaRateLimitInfo` from `src/types.ts`. -/
structure StravaRateLimitInfo where
  shortTerm : RateLimitBucket
  longTerm : RateLimitBucket
deriving DecidableEq, Repr

/-- The mutable per-instance state of `StravaClient`:
`private tokens` and `private rateLimitInfo`. -/
structure ClientState where
  tokens : Option StravaTokens
  rateLimitInfo : Option StravaRateLimitInfo
deriving DecidableEq, Repr

/-- Observable side effects of a client operation, recorded in order:
an outgoing network call (by endpoint path) or an invocation of the
configured `onTokenRefresh` callback (with the tokens it was given). -/
inductive Effect where
  | networkCall (endpoint : String)
  | tokenRefreshCallback (tokens : StravaTokens)
deriving DecidableEq, Repr

/-- Value of a decimal-digit string. -/
def decDigitsVal (s : String) : Nat :=
  s.data.foldl (fun a c => a * 10 + (c.toNat - 48)) 0

/-- JavaScript `Number(s)` on the string domain this client exercises
(pieces of `x-ratelimit-*` headers): the empty string converts to `0`,
a nonempty all-decimal-digit string converts to its value, and any other
string converts to `NaN`.  (Fractional, signed, hex and whitespace forms
never arise from splitting these numeric headers and are not modelled.) -/
def jsNumber (s : String) : JsNum :=
  if s.data = [] then .num 0
  else if s.data.all Char.isDigit then .num (decDigitsVal s)
  else .nan

/-- JS `String.prototype.split` with a one-character separator, on the
character list: yields the (possibly empty) pieces between occurrences of
the separator; the empty string yields one empty piece. -/
def splitCharList (sep : Char) : List Char → List (List Char)
  | [] => [[]]
  | c :: rest =>
    let r := splitCharList sep rest
    if c = sep then [] :: r
    else
      match r with
      | [] => [[c]]
      | h :: t => (c :: h) :: t

/-- JS `s.split(',')`. -/
def splitComma (s : String) : List String :=
  (splitCharList ',' s.data).map (fun cs => String.mk cs)

/-- JS array destructuring at position `i` of a `map Number` result:
`undefined` when the position is absent, else the converted number. -/
def listGetJs (xs : List JsNum) (i : Nat) : JsNumVal :=
  match xs.get? i with
  | none => .undef
  | some .nan => .nan
  | some (.num n) => .num n

/-- JS truthiness of `headers.get(...)`: `null` (absent) and the empty
string are falsy, every other string is truthy. -/
def headerTruthy : Option String → Bool
  | none => false
  | some s => s ≠ ""

/-- Embeds `StravaClient.updateRateLimitInfo`: when both headers are truthy,
split each on `','`, convert the pieces with `Number`, destructure the first
two positions, and overwrite the held info; otherwise leave it unchanged. -/
def updateRateLimitInfo (limitHeader usageHeader : Option String)
    (prev : Option StravaRateLimitInfo) : Option StravaRateLimitInfo :=
  if headerTruthy limitHeader && headerTruthy usageHeader then
    let limits := (splitComma (limitHeader.getD "")).map jsNumber
    let usages := (splitComma (usageHeader.getD "")).map jsNumber
    some { shortTerm := { usage := listGetJs usages 0, limit := listGetJs limits 0 }
           longTerm := { usage := listGetJs usages 1, limit := listGetJs limits 1 } }
  else prev

/-- Embeds `StravaClient.hasValidTokens`: false when no tokens are held,
otherwise `expiresAt > floor(Date.now() / 1000)`.  `nowMs` is the current
time in milliseconds (`Date.now()`). -/
def hasValidTokens (tokens : Option StravaTokens) (nowMs : Nat) : Bool :=
  match tokens with
  | none => false
  | some t => nowMs / 1000 < t.expiresAt

/-- Embeds `refreshToken || this.tokens?.refreshToken` followed by the
`if (!tokenToRefresh)` guard of `refreshAccessToken`: resolves to the
argument when truthy, else to the held refresh token when truthy,
else to nothing. -/
def resolveRefreshToken (arg : Option String) (tokens : Option StravaTokens) :
    Option String :=
  let viaArg : Option String :=
    match arg with
    | some s => if s = "" then none else some s
    | none => none
  match viaArg with
  | some s => some s
  | none =>
    match tokens with
    | none => none
    | some t => if t.refreshToken = "" then none else some t.refreshToken

/-- Converts a token-endpoint response body into the stored token triple,
as both `exchangeAuthorizationCode` and `refreshAccessToken` do. -/
def tokensOfResponse (data : StravaTokenResponse) : StravaTokens :=
  { accessToken := data.access_token
    refreshToken := data.refresh_token
    expiresAt := data.expires_at }

/-- Embeds `StravaClient.refreshAccessToken`.  `net` is the oracle for the
`POST /oauth/token` outcome, `cb` the configured `onTokenRefresh` callback
(which may itself fail; it is awaited, so its error propagates).  Returns
the call's result, the resulting client state, and the effect trace. -/
def refreshAccessToken (st : ClientState) (arg : Option String)
    (net : Except StravaError StravaTokenResponse)
    (cb : StravaTokens → Except StravaError Unit) :
    Except StravaError StravaTokenResponse × ClientState × List Effect :=
  match resolveRefreshToken arg st.tokens with
  | none => (.error (.tokenRefreshError "No refresh token available"), st, [])
  | some _ =>
    match net with
    | .error e => (.error e, st, [.networkCall "/oauth/token"])
    | .ok data =>
      let newTokens := tokensOfResponse data
      let st2 := { st with tokens := some newTokens }
      let tr := [Effect.networkCall "/oauth/token",
                 Effect.tokenRefreshCallback newTokens]
      match cb newTokens with
      | .error e => (.error e, st2, tr)
      | .ok _ => (.ok data, st2, tr)

/-- Embeds `StravaClient.exchangeAuthorizationCode`: one network call; on a
successful response the token triple is stored; no callback is invoked. -/
def exchangeAuthorizationCode (st : ClientState)
    (net : Except StravaError StravaTokenResponse) :
    Except StravaError StravaTokenResponse × ClientState × List Effect :=
  match net with
  | .error e => (.error e, st, [.networkCall "/oauth/token"])
  | .ok data =>
    (.ok data, { st with tokens := some (tokensOfResponse data) },
     [.networkCall "/oauth/token"])

/-- Embeds `StravaClient.refreshTokenIfNeeded`: no-op without tokens;
refreshes via `refreshAccessToken` when `expiresAt < now + refreshBuffer`.
`now` is `floor(Date.now() / 1000)`. -/
def refreshTokenIfNeeded (cfg : ClientConfig) (st : ClientState) (now : Nat)
    (net : Except StravaError StravaTokenResponse)
    (cb : StravaTokens → Except StravaError Unit) :
    Except StravaError Unit × ClientState × List Effect :=
  match st.tokens with
  | none => (.ok (), st, [])
  | some t =>
    if t.expiresAt < now + cfg.refreshBuffer then
      match refreshAccessToken st none net cb with
      | (.ok _, st2, tr) => (.ok (), st2, tr)
      | (.error e, st2, tr) => (.error e, st2, tr)
    else (.ok (), st, [])

/-- JS object-key assignment on a header object (keys unique): overwrites
the binding in place when the key is present, else appends it, as property
assignment, spread merging and `Object.assign` do. -/
def setHeader : List (String × String) → String → String →
    List (String × String)
  | [], k, v => [(k, v)]
  | p :: rest, k, v =>
    if p.1 = k then (k, v) :: rest else p :: setHeader rest k v

/-- Merging `{'Content-Type': ..., ...options.headers}`: later keys win. -/
def mergeHeaders (base extra : List (String × String)) :
    List (String × String) :=
  extra.foldl (fun acc p => setHeader acc p.1 p.2) base

/-- Reads a header value from the computed header object. -/
def lookupHeader (hs : List (String × String)) (k : String) : Option String :=
  (hs.find? (fun p => p.1 = k)).map (fun p => p.2)

/-- Embeds `StravaClient.getAuthHeaders`: throws a validation error when no
truthy access token is held, else yields the bearer authorization header. -/
def getAuthHeaders (st : ClientState) : Except StravaError (String × String) :=
  match st.tokens with
  | none =>
    .error (.validationError "No access token available. Please authenticate first.")
  | some t =>
    if t.accessToken = "" then
      .error (.validationError "No access token available. Please authenticate first.")
    else .ok ("Authorization", "Bearer " ++ t.accessToken)

/-- Embeds the pre-dispatch part of `StravaClient.request` up to and
including header construction: the auto-refresh pre-flight (step 1 of the
dispatch contract), then the merge of the default content-type header, the
caller's headers, and (unless `skipAuth`) the authorization header.  `net`
and `cb` are the oracles a triggered refresh would use.  Result: the
computed header object (or the thrown error), the client state at dispatch
time, and the effect trace so far. -/
def requestPreflight (cfg : ClientConfig) (st : ClientState) (skipAuth : Bool)
    (callerHeaders : List (String × String)) (now : Nat)
    (net : Except StravaError StravaTokenResponse)
    (cb : StravaTokens → Except StravaError Unit) :
    Except StravaError (List (String × String)) × ClientState × List Effect :=
  let step1 : Except StravaError Unit × ClientState × List Effect :=
    if cfg.autoRefresh && st.tokens.isSome && !skipAuth then
      refreshTokenIfNeeded cfg st now net cb
    else (.ok (), st, [])
  match step1 with
  | (.error e, st1, tr) => (.error e, st1, tr)
  | (.ok _, st1, tr) =>
    let baseHeaders :=
      mergeHeaders [("Content-Type", "application/json")] callerHeaders
    if skipAuth then (.ok baseHeaders, st1, tr)
    else
      match getAuthHeaders st1 with
      | .error e => (.error e, st1, tr)
      | .ok kv => (.ok (setHeader baseHeaders kv.1 kv.2), st1, tr)

/-- Embeds `StravaClient.clearTokens`. -/
def clearTokens (st : ClientState) : ClientState := { st with tokens := none }

/-- Embeds `StravaClient.deauthorize`: `reqOutcome` is the outcome of
`await this.request('POST', '/oauth/deauthorize')` — its result together
with the client state after that dispatch.  When the revoke call throws,
the error propagates and the `clearTokens` line is never reached; when it
succeeds, the tokens are cleared. -/
def deauthorize (reqOutcome : Except StravaError Unit × ClientState) :
    Except StravaError Unit × ClientState :=
  match reqOutcome with
  | (.error e, st) => (.error e, st)
  | (.ok _, st) => (.ok (), clearTokens st)

/-- A query-parameter value of `Record<string, string | number | boolean>`
(the `undefined` case is the `Option.none` wrapper at use sites). -/
inductive ParamValue where
  | str (s : String)
  | num (n : Int)
  | bool (b : Bool)
deriving DecidableEq, Repr

/-- JS `String(value)` on a query-parameter value. -/
def paramToString : ParamValue → String
  | .str s => s
  | .num n => toString n
  | .bool b => if b then "true" else "false"

/-- UTF-8 bytes of a character, for percent-encoding. -/
def utf8Bytes (c : Char) : List Nat :=
  let n := c.toNat
  if n < 128 then [n]
  else if n < 2048 then [192 + n / 64, 128 + n % 64]
  else if n < 65536 then [224 + n / 4096, 128 + (n / 64) % 64, 128 + n % 64]
  else [240 + n / 262144, 128 + (n / 4096) % 64, 128 + (n / 64) % 64,
        128 + n % 64]

/-- Uppercase hexadecimal digit. -/
def hexDigit (n : Nat) : Char :=
  if n < 10 then Char.ofNat (48 + n) else Char.ofNat (55 + n)

/-- `%XX` escape of one byte. -/
def percentByte (b : Nat) : String :=
  String.mk ['%', hexDigit (b / 16), hexDigit (b % 16)]

/-- Characters `URLSearchParams` serialization leaves unescaped. -/
def formUnreserved (c : Char) : Bool :=
  c.isAlphanum || c = '*' || c = '-' || c = '.' || c = '_'

/-- `application/x-www-form-urlencoded` escaping of one character, as
`URLSearchParams.toString` performs it: unreserved characters kept, space
becomes `+`, everything else percent-encoded bytewise. -/
def urlencodeChar (c : Char) : String :=
  if formUnreserved c then String.mk [c]
  else if c = ' ' then "+"
  else String.join ((utf8Bytes c).map percentByte)

/-- URL-encodes a whole string. -/
def urlencode (s : String) : String :=
  String.join (s.data.map urlencodeChar)

/-- Embeds the query-string construction of `StravaClient.request`: iterate
the params object in key order, `append` each entry whose value is not
`undefined` to the `URLSearchParams`, then serialize: each kept pair is
URL-encoded as `key=value` and the pairs are joined with `&`. -/
def buildQueryString (params : List (String × Option ParamValue)) : String :=
  let pairs := params.filterMap fun p =>
    p.2.map fun v => urlencode p.1 ++ "=" ++ urlencode (paramToString v)
  String.intercalate "&" pairs

/-- JS `x || d` for an optional numeric option: `undefined` and `0` are
falsy and fall back to the default. -/
def jsOrNat (o : Option Nat) (d : Nat) : Nat :=
  match o with
  | none => d
  | some n => if n = 0 then d else n

/-- Embeds the `while (hasMore)` loop of `StravaClient.getAllActivities`.
`fetch p` is the oracle for the page-`p` response.  The source loop has no
bound, so it is modelled with explicit fuel; every claim is evaluated with
fuel at least the number of iterations the loop actually makes.  Returns
the accumulated activities and the list of page numbers requested,
in request order. -/
def getAllActivitiesLoop {α : Type} (fetch : Nat → List α) (perPage : Nat) :
    Nat → Nat → List α × List Nat
  | 0, _ => ([], [])
  | fuel + 1, page =>
    let activities := fetch page
    if activities.length = 0 then ([], [page])
    else if activities.length < perPage then (activities, [page])
    else
      let rest := getAllActivitiesLoop fetch perPage fuel (page + 1)
      (activities ++ rest.1, page :: rest.2)

/-- Embeds `StravaClient.getAllActivities`: page size is the caller's
`per_page` or 200 (JS `||` default), pages are requested sequentially
starting from 1. -/
def getAllActivities {α : Type} (fetch : Nat → List α)
    (perPageOpt : Option Nat) (fuel : Nat) : List α × List Nat :=
  getAllActivitiesLoop fetch (jsOrNat perPageOpt 200) fuel 1

/-- Recognizes an `onTokenRefresh` invocation in an effect trace. -/
def isRefreshCallback : Effect → Bool
  | .tokenRefreshCallback _ => true
  | .networkCall _ => false

/-- Entries whose value is `none` contribute nothing to the serialized
pairs, so filtering them out first changes nothing. -/
theorem queryPairs_filter (params : List (String × Option ParamValue))
    (g : String → ParamValue → String) :
    (params.filter fun p => p.2.isSome).filterMap (fun p => p.2.map (g p.1)) =
    params.filterMap (fun p => p.2.map (g p.1)) := by
  induction params with
  | nil => rfl
  | cons hd tl ih => cases h : hd.2 <;> simp [List.filter_cons, h, ih]

/-- Overwriting a key then reading it back yields the written value. -/
theorem lookupHeader_setHeader (hs : List (String × String)) (k v : String) :
    lookupHeader (setHeader hs k v) k = some v := by
  induction hs with
  | nil => simp [setHeader, lookupHeader, List.find?]
  | cons p rest ih =>
    by_cases hk : p.1 = k
    · simp [setHeader, lookupHeader, hk, List.find?]
    · simpa [setHeader, lookupHeader, hk, List.find?] using ih

/-- C5: `hasValidTokens()` returns true iff a TokenSet is present and its
`expiresAt` is strictly greater than the current time in whole seconds; in
particular it is false when no TokenSet is held or when
`expiresAt <= floor(nowMs / 1000)`. -/
theorem hasValidTokens_iff (tokens : Option StravaTokens) (nowMs : Nat) :
    hasValidTokens tokens nowMs = true ↔
    ∃ t, tokens = some t ∧ nowMs / 1000 < t.expiresAt := by
  cases tokens with
  | none => simp [hasValidTokens]
  | some t => simp [hasValidTokens]

/-- Witness for C5 at a concrete state: a token expiring at second 100 is
valid at 99999 ms (second 99). -/
theorem hasValidTokens_iff_witness :
    hasValidTokens (some ⟨"acc", "ref", 100⟩) 99999 = true :=
  (hasValidTokens_iff (some ⟨"acc", "ref", 100⟩) 99999).mpr
    ⟨⟨"acc", "ref", 100⟩, rfl, by decide⟩

/-- C3 counterexample: when the revoke call of `deauthorize` fails, the held
TokenSet is NOT cleared — the error propagates before `clearTokens()` runs,
so the tokens are still present, contradicting "unconditionally clears the
local token state regardless of partial failure". -/
theorem deauthorize_failure_keeps_tokens :
    (deauthorize (.error (.networkError "Request timed out"),
      ⟨some ⟨"acc", "ref", 1000⟩, none⟩)).2.tokens ≠ none := by
  decide

/-- C3 amended: `deauthorize()` clears the local token state only when the
revoke call succeeds; when the revoke call fails, the error propagates to
the caller and the client state (tokens included) is left exactly as the
failed dispatch left it. -/
theorem deauthorize_clears_only_on_success :
    (∀ (st : ClientState) (e : StravaError),
      deauthorize (.error e, st) = (.error e, st)) ∧
    (∀ st : ClientState, deauthorize (.ok (), st) = (.ok (), clearTokens st)) := by
  exact ⟨fun st e => rfl, fun st => rfl⟩

/-- C6: `getAllActivities` with `per_page = 2` against pages of [2, 2, 1]
items returns all 5 items in original order, requesting exactly the pages
1, 2, 3 in that sequential order; and an absent `per_page` runs the same
loop with the default page size 200. -/
theorem getAllActivities_pagination (a1 a2 a3 a4 a5 : Nat) :
    getAllActivities
      (fun p => if p = 1 then [a1, a2] else if p = 2 then [a3, a4]
        else if p = 3 then [a5] else []) (some 2) 10 =
      ([a1, a2, a3, a4, a5], [1, 2, 3]) ∧
    ∀ (fetch : Nat → List Nat) (fuel : Nat),
      getAllActivities fetch none fuel = getAllActivitiesLoop fetch 200 fuel 1 := by
  exact ⟨rfl, fun fetch fuel => rfl⟩

/-- C8: query parameters whose value is `undefined` are omitted entirely
from the query string (serialization only sees the defined entries), every
defined entry is URL-encoded as `key=value`, and the concrete params object
`{after: undefined, page: 2}` serializes to exactly `page=2`. -/
theorem buildQueryString_omits_undefined :
    (∀ params : List (String × Option ParamValue),
      buildQueryString params =
        buildQueryString (params.filter fun p => p.2.isSome)) ∧
    (∀ k v, buildQueryString [(k, some v)] =
      urlencode k ++ "=" ++ urlencode (paramToString v)) ∧
    buildQueryString [("after", none), ("page", some (.num 2))] = "page=2" := by
  refine ⟨?_, ?_, by decide⟩
  · intro params
    exact (congrArg (String.intercalate "&")
      (queryPairs_filter params
        (fun k v => urlencode k ++ "=" ++ urlencode (paramToString v)))).symm
  · intro k v
    simp [buildQueryString, String.intercalate, String.intercalate.go]

/-- C9: when both rate-limit headers are present and each splits on `','`
into two numeric pieces, the stored RateLimitInfo takes its `shortTerm`
fields from the first piece of each header and its `longTerm` fields from
the second: limits from `x-ratelimit-limit`, usages from
`x-ratelimit-usage`. -/
theorem updateRateLimitInfo_parses_pairs
    (lH uH : String) (prev : Option StravaRateLimitInfo)
    (l1 l2 u1 u2 : String) (a b c d : Int)
    (hl : splitComma lH = [l1, l2]) (hu : splitComma uH = [u1, u2])
    (ha : jsNumber l1 = .num a) (hb : jsNumber l2 = .num b)
    (hc : jsNumber u1 = .num c) (hd : jsNumber u2 = .num d)
    (hlne : lH ≠ "") (hune : uH ≠ "") :
    updateRateLimitInfo (some lH) (some uH) prev =
    some ⟨⟨.num c, .num a⟩, ⟨.num d, .num b⟩⟩ := by
  simp [updateRateLimitInfo, headerTruthy, hlne, hune, hl, hu,
    ha, hb, hc, hd, listGetJs]

/-- Witness for C9 at the concrete headers of the claim:
`"100,1000"` / `"10,50"` yields
`{shortTerm: {usage: 10, limit: 100}, longTerm: {usage: 50, limit: 1000}}`. -/
theorem updateRateLimitInfo_parses_pairs_witness :
    updateRateLimitInfo (some "100,1000") (some "10,50") none =
    some ⟨⟨.num 10, .num 100⟩, ⟨.num 50, .num 1000⟩⟩ :=
  updateRateLimitInfo_parses_pairs "100,1000" "10,50" none
    "100" "1000" "10" "50" 100 1000 10 50
    (by decide) (by decide) (by decide) (by decide) (by decide) (by decide)
    (by decide) (by decide)

/-- C2 counterexample: a malformed (non-numeric) but present
`x-ratelimit-limit` header does NOT leave the held RateLimitInfo untouched —
the code only checks presence, so it overwrites the previous value (with a
`NaN` short-term limit and an `undefined` long-term limit), contradicting
"malformed headers leave the previous RateLimitInfo exactly as it was". -/
theorem updateRateLimitInfo_malformed_overwrites :
    updateRateLimitInfo (some "abc") (some "10,50")
      (some ⟨⟨.num 1, .num 2⟩, ⟨.num 3, .num 4⟩⟩) ≠
    some ⟨⟨.num 1, .num 2⟩, ⟨.num 3, .num 4⟩⟩ := by
  decide

/-- C2 amended: the held RateLimitInfo is left exactly as it was only when
at least one of the two headers is missing or empty; whenever both are
present and non-empty it is overwritten with the parse result regardless of
parseability (the new value does not depend on the previous one), malformed
pieces becoming `NaN` and absent pieces `undefined`. -/
theorem updateRateLimitInfo_frame :
    (∀ uH prev, updateRateLimitInfo none uH prev = prev) ∧
    (∀ uH prev, updateRateLimitInfo (some "") uH prev = prev) ∧
    (∀ lH prev, updateRateLimitInfo lH none prev = prev) ∧
    (∀ lH prev, updateRateLimitInfo lH (some "") prev = prev) ∧
    (∀ lH uH prev prev', headerTruthy lH = true → headerTruthy uH = true →
      updateRateLimitInfo lH uH prev = updateRateLimitInfo lH uH prev') := by
  refine ⟨?_, ?_, ?_, ?_, ?_⟩
  · intro uH prev; simp [updateRateLimitInfo, headerTruthy]
  · intro uH prev; simp [updateRateLimitInfo, headerTruthy]
  · intro lH prev; simp [updateRateLimitInfo, headerTruthy]
  · intro lH prev; simp [updateRateLimitInfo, headerTruthy]
  · intro lH uH prev prev' hl hu; simp [updateRateLimitInfo, hl, hu]

/-- Witness for C2 (amended) at the counterexample's input: with both
headers present (the limit header malformed), the result is the same
whatever RateLimitInfo was held before — the overwrite happens. -/
theorem updateRateLimitInfo_frame_witness :
    updateRateLimitInfo (some "abc") (some "10,50")
      (some ⟨⟨.num 1, .num 2⟩, ⟨.num 3, .num 4⟩⟩) =
    updateRateLimitInfo (some "abc") (some "10,50") none :=
  updateRateLimitInfo_frame.2.2.2.2 (some "abc") (some "10,50")
    (some ⟨⟨.num 1, .num 2⟩, ⟨.num 3, .num 4⟩⟩) none (by decide) (by decide)

/-- C7: when no refresh token is supplied as an argument and the client
holds no TokenSet with a (truthy) refresh token, `refreshAccessToken` fails
with `StravaTokenRefreshError` whatever the network oracle would answer,
the client state is unchanged, and the effect trace is empty — so no
network request is made. -/
theorem refreshAccessToken_no_token_fails
    (st : ClientState) (net : Except StravaError StravaTokenResponse)
    (cb : StravaTokens → Except StravaError Unit)
    (h : st.tokens = none ∨ ∃ t, st.tokens = some t ∧ t.refreshToken = "") :
    refreshAccessToken st none net cb =
    (.error (.tokenRefreshError "No refresh token available"), st, []) := by
  have hres : resolveRefreshToken none st.tokens = none := by
    rcases h with h | ⟨t, ht, hrt⟩ <;> simp [resolveRefreshToken, *]
  simp [refreshAccessToken, hres]

/-- Witness for C7: a client with no tokens at all fails the refresh even
though the network oracle would have answered successfully. -/
theorem refreshAccessToken_no_token_fails_witness :
    refreshAccessToken ⟨none, none⟩ none (.ok ⟨"acc", "ref", 5⟩)
      (fun _ => .ok ()) =
    (.error (.tokenRefreshError "No refresh token available"),
      (⟨none, none⟩ : ClientState), []) :=
  refreshAccessToken_no_token_fails ⟨none, none⟩ (.ok ⟨"acc", "ref", 5⟩)
    (fun _ => .ok ()) (Or.inl rfl)

/-- C10: `exchangeAuthorizationCode` never records an `onTokenRefresh`
callback invocation in its effect trace — for any network outcome — even
though on success it replaces the held TokenSet with the response triple. -/
theorem exchangeAuthorizationCode_no_callback
    (st : ClientState) (net : Except StravaError StravaTokenResponse) :
    (∀ tk, Effect.tokenRefreshCallback tk ∉ (exchangeAuthorizationCode st net).2.2) ∧
    (∀ data, net = .ok data →
      (exchangeAuthorizationCode st net).2.1.tokens =
        some (tokensOfResponse data)) := by
  cases net <;> simp [exchangeAuthorizationCode]

/-- Witness for C10: a concrete successful exchange stores the response
triple and its trace contains no callback invocation. -/
theorem exchangeAuthorizationCode_no_callback_witness :
    Effect.tokenRefreshCallback ⟨"acc", "ref", 5⟩ ∉
      (exchangeAuthorizationCode ⟨none, none⟩ (.ok ⟨"acc", "ref", 5⟩)).2.2 ∧
    (exchangeAuthorizationCode ⟨none, none⟩ (.ok ⟨"acc", "ref", 5⟩)).2.1.tokens =
      some ⟨"acc", "ref", 5⟩ :=
  ⟨(exchangeAuthorizationCode_no_callback ⟨none, none⟩
      (.ok ⟨"acc", "ref", 5⟩)).1 ⟨"acc", "ref", 5⟩,
   (exchangeAuthorizationCode_no_callback ⟨none, none⟩
      (.ok ⟨"acc", "ref", 5⟩)).2 ⟨"acc", "ref", 5⟩ rfl⟩

/-- C4: after a successful token-endpoint response, both
`exchangeAuthorizationCode` and `refreshAccessToken` leave the client
holding exactly the `{access_token, refresh_token, expires_at}` triple of
the response; `refreshAccessToken` additionally records exactly one
`onTokenRefresh` invocation, with that triple, and since the callback is
awaited, a callback failure propagates as the call's result while a
callback success yields the response. -/
theorem tokenOps_store_response_triple
    (st : ClientState) (arg : Option String) (data : StravaTokenResponse)
    (cb : StravaTokens → Except StravaError Unit)
    (hresolve : resolveRefreshToken arg st.tokens ≠ none) :
    ((exchangeAuthorizationCode st (.ok data)).2.1.tokens =
      some (tokensOfResponse data)) ∧
    ((refreshAccessToken st arg (.ok data) cb).2.1.tokens =
      some (tokensOfResponse data)) ∧
    ((refreshAccessToken st arg (.ok data) cb).2.2.filter isRefreshCallback =
      [Effect.tokenRefreshCallback (tokensOfResponse data)]) ∧
    (cb (tokensOfResponse data) = .ok () →
      (refreshAccessToken st arg (.ok data) cb).1 = .ok data) ∧
    (∀ e, cb (tokensOfResponse data) = .error e →
      (refreshAccessToken st arg (.ok data) cb).1 = .error e) := by
  obtain ⟨tok, htok⟩ := Option.ne_none_iff_exists'.mp hresolve
  refine ⟨rfl, ?_, ?_, ?_, ?_⟩ <;>
    cases hcb : cb (tokensOfResponse data) <;>
      simp [refreshAccessToken, exchangeAuthorizationCode, htok, hcb,
        isRefreshCallback, List.filter]

/-- Witness for C4: a concrete refresh with a supplied refresh token stores
the response triple in the client state. -/
theorem tokenOps_store_response_triple_witness :
    (refreshAccessToken ⟨none, none⟩ (some "ref") (.ok ⟨"na", "nr", 9⟩)
      (fun _ => .ok ())).2.1.tokens = some ⟨"na", "nr", 9⟩ :=
  (tokenOps_store_response_triple ⟨none, none⟩ (some "ref") ⟨"na", "nr", 9⟩
    (fun _ => .ok ()) (by decide)).2.1

/-- C1: for a dispatched request with `autoRefresh` on, a token held, and
auth not skipped, whose held token expires within the refresh buffer
(`expiresAt < now + refreshBuffer`): the refresh runs to completion before
the Authorization header is computed (the trace is exactly the refresh's
network call followed by its callback), the token attached in the
Authorization header is the refreshed access token, and — the refresh
response being fresh beyond the buffer — the request is not dispatched with
credentials expiring within the buffer window. -/
theorem request_refreshes_before_auth
    (cfg : ClientConfig) (t : StravaTokens) (rl : Option StravaRateLimitInfo)
    (callerHeaders : List (String × String)) (now : Nat)
    (data : StravaTokenResponse) (cb : StravaTokens → Except StravaError Unit)
    (hAuto : cfg.autoRefresh = true)
    (hExpiring : t.expiresAt < now + cfg.refreshBuffer)
    (hRT : t.refreshToken ≠ "")
    (hcb : cb (tokensOfResponse data) = .ok ())
    (hAT : data.access_token ≠ "")
    (hFresh : now + cfg.refreshBuffer ≤ data.expires_at) :
    ((requestPreflight cfg ⟨some t, rl⟩ false callerHeaders now (.ok data)
        cb).2.1.tokens = some (tokensOfResponse data)) ∧
    (∃ hs, (requestPreflight cfg ⟨some t, rl⟩ false callerHeaders now
        (.ok data) cb).1 = .ok hs ∧
      lookupHeader hs "Authorization" =
        some ("Bearer " ++ data.access_token)) ∧
    ((requestPreflight cfg ⟨some t, rl⟩ false callerHeaders now (.ok data)
        cb).2.2 = [Effect.networkCall "/oauth/token",
                   Effect.tokenRefreshCallback (tokensOfResponse data)]) ∧
    (∀ tk, (requestPreflight cfg ⟨some t, rl⟩ false callerHeaders now
        (.ok data) cb).2.1.tokens = some tk →
      now + cfg.refreshBuffer ≤ tk.expiresAt) := by
  have hpre : requestPreflight cfg ⟨some t, rl⟩ false callerHeaders now
      (.ok data) cb =
      (.ok (setHeader
          (mergeHeaders [("Content-Type", "application/json")] callerHeaders)
          "Authorization" ("Bearer " ++ data.access_token)),
        ⟨some (tokensOfResponse data), rl⟩,
        [Effect.networkCall "/oauth/token",
         Effect.tokenRefreshCallback (tokensOfResponse data)]) := by
    have hAT' : (tokensOfResponse data).accessToken ≠ "" := hAT
    simp [requestPreflight, refreshTokenIfNeeded, refreshAccessToken,
      resolveRefreshToken, getAuthHeaders, hAuto,
      hExpiring, hRT, hcb, hAT']
    rfl
  refine ⟨?_, ?_, ?_, ?_⟩
  · rw [hpre]
  · exact ⟨_, by rw [hpre], lookupHeader_setHeader _ _ _⟩
  · rw [hpre]
  · intro tk htk
    rw [hpre] at htk
    cases htk
    exact hFresh

/-- Witness for C1: a concrete expiring token (second 1000, buffer 600,
now 500) is refreshed and the fresh access token is the one attached. -/
theorem request_refreshes_before_auth_witness :
    (requestPreflight ⟨true, 600⟩ ⟨some ⟨"old", "rt", 1000⟩, none⟩ false []
      500 (.ok ⟨"new", "rt2", 2000⟩) (fun _ => .ok ())).2.1.tokens =
    some ⟨"new", "rt2", 2000⟩ :=
  (request_refreshes_before_auth ⟨true, 600⟩ ⟨"old", "rt", 1000⟩ none [] 500
    ⟨"new", "rt2", 2000⟩ (fun _ => .ok ()) rfl (by decide) (by decide) rfl
    (by decide) (by decide)).1
